import Mathlib

/-!
# Verification of the afv1_example DAQ modules

Shallow embedding of the three DAQ modules of this repository —
`RandomDataListGenerator`, `ListReverser` and `ReversedListValidator` —
and proofs of the specified properties.

Each module's `do_work` loop is modelled as a fuel-bounded interpreter over
an explicit environment that supplies, attempt by attempt, the results of the
external interactions: the value of `thread_.thread_running()` at each check,
the outcome of each queue `pop` (`some` list, or `none` for a timeout) and of
each queue `push` (`true` for success, `false` for a timeout), and the values
returned by `rand()`.  The interpreter returns `none` when the fuel runs out,
`some` final state otherwise.  States carry the modules' local counters and a
count of each kind of ERS issue the code emits (fatal / warning / error),
so that the logging behaviour is part of the model.
-/

/-- Embeds `std::reverse(v.begin(), v.end())` applied to a `std::vector<int>`:
the element order of the list is inverted. Used by `ListReverser::do_work`
and by `ReversedListValidator::do_work`. -/
def reverseList (l : List Int) : List Int :=
  l.reverse

/-! ## ReversedListValidator: the per-comparison validation step

In `ReversedListValidator::do_work`, once both lists have been received the
code reverses the copy of the original data in place and compares:

    std::reverse(originalData.begin(), originalData.end());
    if (originalData != reversedData) { ++failureCount; }
-/

/-- State local to `ReversedListValidator::do_work`: the three counters
declared at the top of the method, the per-oracle positions (how many
`thread_running()` checks, reversed-queue pops and original-queue pops have
happened), and counts of emitted ERS issues.  `errors` counts `ers::error`
emissions: the only candidate call site in the source is commented out
(`//ers::error();`), so no interpreter branch increments it. -/
structure ValState where
  reversedCount : Nat
  comparisonCount : Nat
  failureCount : Nat
  checkIdx : Nat
  revIdx : Nat
  origIdx : Nat
  warnings : Nat
  errors : Nat
  deriving Repr, DecidableEq

/-- The initial validator state: all counters and positions zero. -/
def initValState : ValState :=
  ⟨0, 0, 0, 0, 0, 0, 0, 0⟩

/-- The comparison branch of `ReversedListValidator::do_work`: the original
data is reversed in place and compared with the received reversed data;
`failureCount` is incremented on inequality.  (`orig` and `rev` are the
values of `originalData` and `reversedData` as popped from the queues.) -/
def validateStep (s : ValState) (orig rev : List Int) : ValState :=
  if reverseList orig ≠ rev then
    { s with failureCount := s.failureCount + 1 }
  else
    s

/-! ## RandomDataListGenerator: list construction and configuration -/

/-- One generated list, from `RandomDataListGenerator::do_work`:

    std::vector<int> theList(nIntsPerList_);
    for (size_t idx = 0; idx < nIntsPerList_; ++idx)
      theList[idx] = (rand() % 1000) + 1;

`rand` is the stream of (non-negative) values returned by successive `rand()`
calls and `randIdx` the number of calls made so far. -/
def makeRandomList (n : Nat) (rand : Nat → Nat) (randIdx : Nat) : List Int :=
  (List.range n).map (fun i => ((rand (randIdx + i)) % 1000 : Nat) + 1)

/-- The generator settings that `do_configure` writes:
`nIntsPerList_` and `waitBetweenSendsMsec_`. -/
structure GenSettings where
  nIntsPerList : Nat
  waitBetweenSendsMsec : Nat
  deriving Repr, DecidableEq

/-- The member initialisers in the `RandomDataListGenerator` constructor:
`nIntsPerList_(4)`, `waitBetweenSendsMsec_(1000)`. -/
def genCtorSettings : GenSettings :=
  ⟨4, 1000⟩

/-- The configuration keys `do_configure` reads; `none` models a key absent
from the JSON configuration object. -/
structure GenConfig where
  nIntsPerList : Option Nat
  waitBetweenSendsMsec : Option Nat
  deriving Repr, DecidableEq

/-- `RandomDataListGenerator::do_configure`:

    nIntsPerList_ = get_config().value<size_t>("nIntsPerList", 4);
    waitBetweenSendsMsec_ = get_config().value<size_t>("waitBetweenSendsMsec", 1000);

(`json::value(key, default)` returns the stored value when the key is
present and the default otherwise.) -/
def do_configure (cfg : GenConfig) : GenSettings :=
  { nIntsPerList := cfg.nIntsPerList.getD 4
  , waitBetweenSendsMsec := cfg.waitBetweenSendsMsec.getD 1000 }

/-! ## Claims C1, C2, C3, C9 -/

/-- C1: in one validator iteration with popped lists `orig` (original-data
queue) and `rev` (reversed-data queue), the failure counter is incremented
exactly when the original list, reversed in place, differs from the received
reversed list — equivalently, exactly when `reverse rev ≠ orig`. -/
theorem validator_mismatch_iff (s : ValState) (orig rev : List Int) :
    ((validateStep s orig rev).failureCount = s.failureCount + 1 ↔
      reverseList rev ≠ orig) ∧
    ((validateStep s orig rev).failureCount = s.failureCount ↔
      reverseList rev = orig) := by
  unfold validateStep reverseList
  by_cases h : orig.reverse = rev
  · subst h
    simp
  · have h2 : rev.reverse ≠ orig := by
      intro hc
      exact h (by rw [← hc, List.reverse_reverse])
    simp [h, h2]

/-- C2: each list produced by the generator has exactly `n` elements, and
every element lies in `[1, 1000]`. -/
theorem generator_list_length_and_range (n : Nat) (rand : Nat → Nat)
    (randIdx : Nat) :
    (makeRandomList n rand randIdx).length = n ∧
    ∀ x ∈ makeRandomList n rand randIdx, 1 ≤ x ∧ x ≤ 1000 := by
  constructor
  · simp [makeRandomList]
  · intro x hx
    simp only [makeRandomList, List.mem_map] at hx
    obtain ⟨i, _, hix⟩ := hx
    subst hix
    have hlt : (rand (randIdx + i)) % 1000 < 1000 := Nat.mod_lt _ (by omega)
    constructor
    · exact_mod_cast Nat.succ_le_succ (Nat.zero_le _)
    · have h1000 : ((rand (randIdx + i)) % 1000 : Nat) + 1 ≤ 1000 := by omega
      exact_mod_cast h1000

/-- Witness for C2 at concrete inputs. -/
theorem generator_list_length_and_range_witness :
    (makeRandomList 3 (fun t => t * 37 + 999) 0).length = 3 ∧
    ∀ x ∈ makeRandomList 3 (fun t => t * 37 + 999) 0, 1 ≤ x ∧ x ≤ 1000 :=
  generator_list_length_and_range 3 (fun t => t * 37 + 999) 0

/-- C3: the list reversal applied by the ListReverser and the validator is an
involution: reversing twice yields the original list. -/
theorem reverse_involution (l : List Int) :
    reverseList (reverseList l) = l := by
  simp [reverseList]

/-- C9: omitting `nIntsPerList` from the configuration yields list length 4;
omitting `waitBetweenSendsMsec` yields a 1000 ms delay; a never-configured
generator carries the same defaults from construction. -/
theorem generator_config_defaults (cfg : GenConfig) :
    (cfg.nIntsPerList = none → (do_configure cfg).nIntsPerList = 4) ∧
    (cfg.waitBetweenSendsMsec = none →
      (do_configure cfg).waitBetweenSendsMsec = 1000) ∧
    genCtorSettings.nIntsPerList = 4 ∧
    genCtorSettings.waitBetweenSendsMsec = 1000 := by
  refine ⟨fun h => ?_, fun h => ?_, rfl, rfl⟩
  · simp [do_configure, h]
  · simp [do_configure, h]

/-- Witness for C9: a configuration omitting both keys. -/
theorem generator_config_defaults_witness :
    (do_configure ⟨none, none⟩).nIntsPerList = 4 ∧
    (do_configure ⟨none, none⟩).waitBetweenSendsMsec = 1000 := by
  have h := generator_config_defaults ⟨none, none⟩
  exact ⟨h.1 rfl, h.2.1 rfl⟩

/-! ## The worker-loop interpreters

Each `do_work` loop is a fuel-bounded interpreter.  The environment gives
the outcome of every external interaction, indexed by how many interactions
of that kind have already happened; the state threads the per-oracle
positions.  `none` means the fuel ran out before the loop finished.
-/

/-- External interactions of `ReversedListValidator::do_work`:
`running t` is the value of the t-th `thread_.thread_running()` check,
`revPop t` (resp. `origPop t`) the outcome of the t-th pop from the
reversed-data (resp. original-data) queue — `none` is a timeout. -/
structure ValEnv where
  running : Nat → Bool
  revPop : Nat → Option (List Int)
  origPop : Nat → Option (List Int)

/-- The inner retry loop of `ReversedListValidator::do_work`:

    while (!originalWasSuccessfullyReceived && thread_.thread_running()) {
      if (originalDataQueue_->pop(originalData, queueTimeout_))
      { originalWasSuccessfullyReceived = true; ++comparisonCount; }
      else { ers::warning(QueueTimeoutExpired(...)); } }

Returns the updated state and `some` popped list, or `none` when the loop
exited because the running flag went false. -/
def origPopLoop (env : ValEnv) : Nat → ValState → Option (ValState × Option (List Int))
  | 0, _ => none
  | fuel + 1, s =>
    if env.running s.checkIdx then
      let s1 : ValState := { s with checkIdx := s.checkIdx + 1 }
      match env.origPop s1.origIdx with
      | some v =>
        some ({ s1 with origIdx := s1.origIdx + 1,
                        comparisonCount := s1.comparisonCount + 1 }, some v)
      | none =>
        origPopLoop env fuel
          { s1 with origIdx := s1.origIdx + 1, warnings := s1.warnings + 1 }
    else
      some ({ s with checkIdx := s.checkIdx + 1 }, none)

/-- The outer `while (queuesAreDefined && thread_.thread_running())` loop
of `ReversedListValidator::do_work` (for defined queues).  A timed-out pop
from the reversed-data queue hits `{continue;}`: the loop retries with no
warning.  A successful pop increments `reversedCount`, then the inner
retry loop fetches the original data and, when it succeeded, the two lists
are compared by `validateStep`. -/
def valLoop (env : ValEnv) : Nat → ValState → Option ValState
  | 0, _ => none
  | fuel + 1, s =>
    if env.running s.checkIdx then
      let s1 : ValState := { s with checkIdx := s.checkIdx + 1 }
      match env.revPop s1.revIdx with
      | none => valLoop env fuel { s1 with revIdx := s1.revIdx + 1 }
      | some rev =>
        let s2 : ValState := { s1 with revIdx := s1.revIdx + 1,
                                       reversedCount := s1.reversedCount + 1 }
        match origPopLoop env fuel s2 with
        | none => none
        | some (s3, none) => valLoop env fuel s3
        | some (s3, some orig) => valLoop env fuel (validateStep s3 orig rev)
    else
      some { s with checkIdx := s.checkIdx + 1 }

/-- Result of a full `do_work` call: the final local state together with the
number of `ers::fatal(InvalidQueueFatalError(...))` emissions. -/
structure ValResult where
  state : ValState
  fatals : Nat
  deriving Repr, DecidableEq

/-- `ReversedListValidator::do_work`, from the top: each null queue handle
gets an `ers::fatal(InvalidQueueFatalError(...))` and clears
`queuesAreDefined`, so the `while (queuesAreDefined && ...)` loop body
never runs and the method exits having performed no pops. -/
def validatorDoWork (revQueueNull origQueueNull : Bool) (env : ValEnv)
    (fuel : Nat) : Option ValResult :=
  let fatals := (if revQueueNull then 1 else 0) + (if origQueueNull then 1 else 0)
  if revQueueNull || origQueueNull then
    some { state := initValState, fatals := fatals }
  else
    (valLoop env fuel initValState).map (fun s => { state := s, fatals := fatals })

/-- State local to `ListReverser::do_work`.  Besides the two counters the
model records the lists successfully popped (`inputs`) and the lists
successfully pushed (`outputs`), in order, plus the per-oracle positions
and the count of `ers::warning` emissions. -/
structure RevState where
  receivedCount : Nat
  sentCount : Nat
  inputs : List (List Int)
  outputs : List (List Int)
  checkIdx : Nat
  popIdx : Nat
  pushIdx : Nat
  warnings : Nat
  deriving Repr, DecidableEq

/-- The initial reverser state. -/
def initRevState : RevState :=
  ⟨0, 0, [], [], 0, 0, 0, 0⟩

/-- External interactions of `ListReverser::do_work`: the running-flag
checks, the input-queue pops (`none` is a timeout) and the output-queue
push attempts (`false` is a `QueueTimeoutExpired`). -/
structure RevEnv where
  running : Nat → Bool
  pops : Nat → Option (List Int)
  pushOk : Nat → Bool

/-- The push retry loop of `ListReverser::do_work`:

    while (!successfullyWasSent && thread_.thread_running()) {
      try { outputQueue_->push(workingVector, queueTimeout_);
            successfullyWasSent = true; ++sentCount; }
      catch (const QueueTimeoutExpired&) { ers::warning(...); } }

`v` is the value of `workingVector` (the already-reversed list). -/
def pushLoop (env : RevEnv) (v : List Int) : Nat → RevState → Option RevState
  | 0, _ => none
  | fuel + 1, s =>
    if env.running s.checkIdx then
      let s1 : RevState := { s with checkIdx := s.checkIdx + 1 }
      if env.pushOk s1.pushIdx then
        some { s1 with pushIdx := s1.pushIdx + 1,
                       sentCount := s1.sentCount + 1,
                       outputs := s1.outputs ++ [v] }
      else
        pushLoop env v fuel
          { s1 with pushIdx := s1.pushIdx + 1, warnings := s1.warnings + 1 }
    else
      some { s with checkIdx := s.checkIdx + 1 }

/-- The outer loop of `ListReverser::do_work` (for defined queues): a
timed-out input pop hits `{continue;}` (retry, no warning); a successful
pop increments `receivedCount`, the working vector is reversed in place
and the push retry loop delivers it. -/
def revLoop (env : RevEnv) : Nat → RevState → Option RevState
  | 0, _ => none
  | fuel + 1, s =>
    if env.running s.checkIdx then
      let s1 : RevState := { s with checkIdx := s.checkIdx + 1 }
      match env.pops s1.popIdx with
      | none => revLoop env fuel { s1 with popIdx := s1.popIdx + 1 }
      | some v =>
        let s2 : RevState :=
          { s1 with popIdx := s1.popIdx + 1,
                    receivedCount := s1.receivedCount + 1,
                    inputs := s1.inputs ++ [v] }
        match pushLoop env (reverseList v) fuel s2 with
        | none => none
        | some s3 => revLoop env fuel s3
    else
      some { s with checkIdx := s.checkIdx + 1 }

/-- Result of `ListReverser::do_work`: final state plus the number of
`InvalidQueueFatalError` emissions. -/
structure RevResult where
  state : RevState
  fatals : Nat
  deriving Repr, DecidableEq

/-- `ListReverser::do_work`, from the top: same null-queue guard as the
validator — each null handle is fatal and the loop body never runs. -/
def reverserDoWork (inputQueueNull outputQueueNull : Bool) (env : RevEnv)
    (fuel : Nat) : Option RevResult :=
  let fatals := (if inputQueueNull then 1 else 0) + (if outputQueueNull then 1 else 0)
  if inputQueueNull || outputQueueNull then
    some { state := initRevState, fatals := fatals }
  else
    (revLoop env fuel initRevState).map (fun s => { state := s, fatals := fatals })

/-- State local to `RandomDataListGenerator::do_work`: the two counters,
the generated lists in order, the per-oracle positions, and the counts of
the two kinds of `ers::warning` the method can emit (`QueueTimeoutExpired`
on a push timeout, `NoOutputQueuesAvailableWarning` when there are no
output queues). -/
structure GenState where
  generatedCount : Nat
  sentCount : Nat
  lists : List (List Int)
  randIdx : Nat
  checkIdx : Nat
  pushIdx : Nat
  timeoutWarnings : Nat
  noQueueWarnings : Nat
  deriving Repr, DecidableEq

/-- The initial generator state. -/
def initGenState : GenState :=
  ⟨0, 0, [], 0, 0, 0, 0, 0⟩

/-- External interactions of `RandomDataListGenerator::do_work`: the
running-flag checks, the `rand()` stream, and the push attempts. -/
structure GenEnv where
  running : Nat → Bool
  rand : Nat → Nat
  pushOk : Nat → Bool

/-- The per-queue push retry loop of `RandomDataListGenerator::do_work`,
identical in shape to the reverser's: each timeout logs a
`QueueTimeoutExpired` warning and the push is retried while the running
flag holds. -/
def genPushRetry (env : GenEnv) : Nat → GenState → Option GenState
  | 0, _ => none
  | fuel + 1, s =>
    if env.running s.checkIdx then
      let s1 : GenState := { s with checkIdx := s.checkIdx + 1 }
      if env.pushOk s1.pushIdx then
        some { s1 with pushIdx := s1.pushIdx + 1, sentCount := s1.sentCount + 1 }
      else
        genPushRetry env fuel
          { s1 with pushIdx := s1.pushIdx + 1,
                    timeoutWarnings := s1.timeoutWarnings + 1 }
    else
      some { s with checkIdx := s.checkIdx + 1 }

/-- The `for (auto& outQueue : outputQueues_)` loop: one push retry loop
per configured output queue (`k` queues remaining). -/
def genPushAll (env : GenEnv) (fuel : Nat) : Nat → GenState → Option GenState
  | 0, s => some s
  | k + 1, s =>
    match genPushRetry env fuel s with
    | none => none
    | some s1 => genPushAll env fuel k s1

/-- The `while (thread_.thread_running())` loop of
`RandomDataListGenerator::do_work` with list length `n` and `numQueues`
output queues: generate a list of `n` random ints (consuming `n` `rand()`
values), push it to every queue, and — only when there are no output
queues at all — log a `NoOutputQueuesAvailableWarning` and keep going.
There is no null-queue fatal guard in this method; the
`sleep_for(waitBetweenSendsMsec_)` has no observable effect in the model. -/
def genLoop (env : GenEnv) (n numQueues : Nat) : Nat → GenState → Option GenState
  | 0, _ => none
  | fuel + 1, s =>
    if env.running s.checkIdx then
      let s1 : GenState := { s with checkIdx := s.checkIdx + 1 }
      let s2 : GenState :=
        { s1 with randIdx := s1.randIdx + n,
                  generatedCount := s1.generatedCount + 1,
                  lists := s1.lists ++ [makeRandomList n env.rand s1.randIdx] }
      match genPushAll env fuel numQueues s2 with
      | none => none
      | some s3 =>
        let s4 : GenState :=
          if numQueues = 0 then
            { s3 with noQueueWarnings := s3.noQueueWarnings + 1 }
          else s3
        genLoop env n numQueues fuel s4
    else
      some { s with checkIdx := s.checkIdx + 1 }

/-- `RandomDataListGenerator::do_work`, from the top: unlike the validator
and the reverser it performs no queue-validity check before entering the
loop. -/
def generatorDoWork (env : GenEnv) (n numQueues fuel : Nat) : Option GenState :=
  genLoop env n numQueues fuel initGenState

/-! ## Claims C4, C5, C6 -/

/-- C4 counterexample: the claim asserts that every module — including the
generator with zero output queues — aborts its work loop with a fatal error
before doing any work when its queues are missing.  The generator does not:
with zero output queues and the running flag true for one check, its loop
still generates a list (`generatedCount = 1`, one entry in `lists`), emits a
`NoOutputQueuesAvailableWarning` (not a fatal), and only stops because the
flag goes false. -/
theorem generator_zero_queues_not_aborted :
    generatorDoWork ⟨fun t => t == 0, fun _ => 0, fun _ => true⟩ 4 0 2 =
      some ⟨1, 0, [[1, 1, 1, 1]], 4, 2, 0, 0, 1⟩ := by
  decide

/-- C4 amended: a missing (null) queue handle at worker start is fatal for
the validator and the reverser — an `InvalidQueueFatalError` is emitted per
null handle and the work loop is aborted with no pops or pushes (the final
state is the initial one).  The generator performs no such check: with zero
output queues and the running flag up, its loop completes a full iteration —
generating a list and logging a `NoOutputQueuesAvailableWarning` — and
continues. -/
theorem null_queue_handling (rN oN : Bool) (venv : ValEnv) (renv : RevEnv)
    (genv : GenEnv) (n fuel : Nat) (s : GenState)
    (hnull : (rN || oN) = true) (hrun : genv.running s.checkIdx = true) :
    (validatorDoWork rN oN venv fuel =
        some ⟨initValState, (if rN then 1 else 0) + (if oN then 1 else 0)⟩ ∧
      1 ≤ (if rN then 1 else 0) + (if oN then 1 else 0)) ∧
    (reverserDoWork rN oN renv fuel =
        some ⟨initRevState, (if rN then 1 else 0) + (if oN then 1 else 0)⟩) ∧
    (genLoop genv n 0 (fuel + 1) s =
      genLoop genv n 0 fuel
        { s with checkIdx := s.checkIdx + 1, randIdx := s.randIdx + n,
                 generatedCount := s.generatedCount + 1,
                 lists := s.lists ++ [makeRandomList n genv.rand s.randIdx],
                 noQueueWarnings := s.noQueueWarnings + 1 }) := by
  refine ⟨⟨?_, ?_⟩, ?_, ?_⟩
  · simp [validatorDoWork, hnull]
  · rcases rN with _ | _ <;> rcases oN with _ | _ <;> simp_all
  · simp [reverserDoWork, hnull]
  · simp [genLoop, hrun, genPushAll]

/-- Witness for C4 (amended) at concrete inputs. -/
theorem null_queue_handling_witness :
    (validatorDoWork true false ⟨fun _ => true, fun _ => none, fun _ => none⟩ 5 =
        some ⟨initValState, 1⟩ ∧
      1 ≤ 1) ∧
    (reverserDoWork true false ⟨fun _ => true, fun _ => none, fun _ => true⟩ 5 =
        some ⟨initRevState, 1⟩) ∧
    (genLoop ⟨fun _ => true, fun _ => 0, fun _ => true⟩ 2 0 (3 + 1) initGenState =
      genLoop ⟨fun _ => true, fun _ => 0, fun _ => true⟩ 2 0 3
        { initGenState with
            checkIdx := initGenState.checkIdx + 1,
            randIdx := initGenState.randIdx + 2,
            generatedCount := initGenState.generatedCount + 1,
            lists := initGenState.lists ++
              [makeRandomList 2 (fun _ => 0) initGenState.randIdx],
            noQueueWarnings := initGenState.noQueueWarnings + 1 }) := by
  have h := null_queue_handling true false
    ⟨fun _ => true, fun _ => none, fun _ => none⟩
    ⟨fun _ => true, fun _ => none, fun _ => true⟩
    ⟨fun _ => true, fun _ => 0, fun _ => true⟩ 2 3 initGenState rfl rfl
  exact ⟨⟨h.1.1, h.1.2⟩, h.2.1, h.2.2⟩

/-- C5 counterexample: the claim asserts every queue timeout in every worker
produces a logged warning, naming the validator's pop from the reversed-data
queue.  In a run where that pop times out once (`revIdx = 1` with
`reversedCount = 0`) and the thread then stops, no warning is emitted
(`warnings = 0`): the timed-out pop hits `{continue;}` silently. -/
theorem validator_revpop_timeout_silent :
    valLoop ⟨fun t => t == 0, fun _ => none, fun _ => none⟩ 2 initValState =
      some ⟨0, 0, 0, 2, 1, 0, 0, 0⟩ := by
  decide

/-- C5 amended: for every worker a queue timeout is recoverable — it never
terminates the work loop and the operation is retried — and the push
timeouts of the generator and the reverser, and the validator's pop from the
original-data queue, each log a `QueueTimeoutExpired` warning; but the
validator's pop from the reversed-data queue and the reverser's pop from the
input queue are retried silently, with no warning. -/
theorem queue_timeout_handling (venv : ValEnv) (renv : RevEnv) (genv : GenEnv)
    (vs : ValState) (rs : RevState) (gs : GenState) (v : List Int) (fuel : Nat)
    (hv : venv.running vs.checkIdx = true)
    (hr : renv.running rs.checkIdx = true)
    (hg : genv.running gs.checkIdx = true)
    (hvpop : venv.revPop vs.revIdx = none)
    (hvorig : venv.origPop vs.origIdx = none)
    (hrpop : renv.pops rs.popIdx = none)
    (hrpush : renv.pushOk rs.pushIdx = false)
    (hgpush : genv.pushOk gs.pushIdx = false) :
    (valLoop venv (fuel + 1) vs =
      valLoop venv fuel
        { vs with checkIdx := vs.checkIdx + 1, revIdx := vs.revIdx + 1 }) ∧
    (origPopLoop venv (fuel + 1) vs =
      origPopLoop venv fuel
        { vs with checkIdx := vs.checkIdx + 1, origIdx := vs.origIdx + 1,
                  warnings := vs.warnings + 1 }) ∧
    (revLoop renv (fuel + 1) rs =
      revLoop renv fuel
        { rs with checkIdx := rs.checkIdx + 1, popIdx := rs.popIdx + 1 }) ∧
    (pushLoop renv v (fuel + 1) rs =
      pushLoop renv v fuel
        { rs with checkIdx := rs.checkIdx + 1, pushIdx := rs.pushIdx + 1,
                  warnings := rs.warnings + 1 }) ∧
    (genPushRetry genv (fuel + 1) gs =
      genPushRetry genv fuel
        { gs with checkIdx := gs.checkIdx + 1, pushIdx := gs.pushIdx + 1,
                  timeoutWarnings := gs.timeoutWarnings + 1 }) := by
  refine ⟨?_, ?_, ?_, ?_, ?_⟩
  · simp [valLoop, hv, hvpop]
  · simp [origPopLoop, hv, hvorig]
  · simp [revLoop, hr, hrpop]
  · simp [pushLoop, hr, hrpush]
  · simp [genPushRetry, hg, hgpush]

/-- Witness for C5 (amended) at concrete inputs. -/
theorem queue_timeout_handling_witness :
    (valLoop ⟨fun _ => true, fun _ => none, fun _ => none⟩ (0 + 1) initValState =
      valLoop ⟨fun _ => true, fun _ => none, fun _ => none⟩ 0
        { initValState with checkIdx := initValState.checkIdx + 1,
                            revIdx := initValState.revIdx + 1 }) ∧
    (origPopLoop ⟨fun _ => true, fun _ => none, fun _ => none⟩ (0 + 1) initValState =
      origPopLoop ⟨fun _ => true, fun _ => none, fun _ => none⟩ 0
        { initValState with checkIdx := initValState.checkIdx + 1,
                            origIdx := initValState.origIdx + 1,
                            warnings := initValState.warnings + 1 }) ∧
    (revLoop ⟨fun _ => true, fun _ => none, fun _ => false⟩ (0 + 1) initRevState =
      revLoop ⟨fun _ => true, fun _ => none, fun _ => false⟩ 0
        { initRevState with checkIdx := initRevState.checkIdx + 1,
                            popIdx := initRevState.popIdx + 1 }) ∧
    (pushLoop ⟨fun _ => true, fun _ => none, fun _ => false⟩ [3] (0 + 1) initRevState =
      pushLoop ⟨fun _ => true, fun _ => none, fun _ => false⟩ [3] 0
        { initRevState with checkIdx := initRevState.checkIdx + 1,
                            pushIdx := initRevState.pushIdx + 1,
                            warnings := initRevState.warnings + 1 }) ∧
    (genPushRetry ⟨fun _ => true, fun _ => 0, fun _ => false⟩ (0 + 1) initGenState =
      genPushRetry ⟨fun _ => true, fun _ => 0, fun _ => false⟩ 0
        { initGenState with checkIdx := initGenState.checkIdx + 1,
                            pushIdx := initGenState.pushIdx + 1,
                            timeoutWarnings := initGenState.timeoutWarnings + 1 }) :=
  queue_timeout_handling
    ⟨fun _ => true, fun _ => none, fun _ => none⟩
    ⟨fun _ => true, fun _ => none, fun _ => false⟩
    ⟨fun _ => true, fun _ => 0, fun _ => false⟩
    initValState initRevState initGenState [3] 0
    rfl rfl rfl rfl rfl rfl rfl rfl

/-- C6: every retry loop and every outer work loop is guarded by the
thread's running flag: as soon as the flag reads false at a loop's check,
that loop exits immediately — the inner push/pop retry loops return without
attempting the operation again, and the outer loops return their final
state — so each worker terminates. -/
theorem loops_exit_when_not_running (venv : ValEnv) (renv : RevEnv)
    (genv : GenEnv) (vs : ValState) (rs : RevState) (gs : GenState)
    (v : List Int) (n k fuel : Nat)
    (hv : venv.running vs.checkIdx = false)
    (hr : renv.running rs.checkIdx = false)
    (hg : genv.running gs.checkIdx = false) :
    valLoop venv (fuel + 1) vs = some { vs with checkIdx := vs.checkIdx + 1 } ∧
    origPopLoop venv (fuel + 1) vs =
      some ({ vs with checkIdx := vs.checkIdx + 1 }, none) ∧
    revLoop renv (fuel + 1) rs = some { rs with checkIdx := rs.checkIdx + 1 } ∧
    pushLoop renv v (fuel + 1) rs =
      some { rs with checkIdx := rs.checkIdx + 1 } ∧
    genLoop genv n k (fuel + 1) gs =
      some { gs with checkIdx := gs.checkIdx + 1 } ∧
    genPushRetry genv (fuel + 1) gs =
      some { gs with checkIdx := gs.checkIdx + 1 } := by
  refine ⟨?_, ?_, ?_, ?_, ?_, ?_⟩
  · simp [valLoop, hv]
  · simp [origPopLoop, hv]
  · simp [revLoop, hr]
  · simp [pushLoop, hr]
  · simp [genLoop, hg]
  · simp [genPushRetry, hg]

/-- Witness for C6 at concrete inputs. -/
theorem loops_exit_when_not_running_witness :
    valLoop ⟨fun _ => false, fun _ => none, fun _ => none⟩ (4 + 1) initValState =
      some { initValState with checkIdx := initValState.checkIdx + 1 } ∧
    origPopLoop ⟨fun _ => false, fun _ => none, fun _ => none⟩ (4 + 1) initValState =
      some ({ initValState with checkIdx := initValState.checkIdx + 1 }, none) ∧
    revLoop ⟨fun _ => false, fun _ => none, fun _ => true⟩ (4 + 1) initRevState =
      some { initRevState with checkIdx := initRevState.checkIdx + 1 } ∧
    pushLoop ⟨fun _ => false, fun _ => none, fun _ => true⟩ [7] (4 + 1) initRevState =
      some { initRevState with checkIdx := initRevState.checkIdx + 1 } ∧
    genLoop ⟨fun _ => false, fun _ => 0, fun _ => true⟩ 3 1 (4 + 1) initGenState =
      some { initGenState with checkIdx := initGenState.checkIdx + 1 } ∧
    genPushRetry ⟨fun _ => false, fun _ => 0, fun _ => true⟩ (4 + 1) initGenState =
      some { initGenState with checkIdx := initGenState.checkIdx + 1 } :=
  loops_exit_when_not_running
    ⟨fun _ => false, fun _ => none, fun _ => none⟩
    ⟨fun _ => false, fun _ => none, fun _ => true⟩
    ⟨fun _ => false, fun _ => 0, fun _ => true⟩
    initValState initRevState initGenState [7] 3 1 4
    rfl rfl rfl

/-! ## Helper lemmas about the validator loop -/

/-- `validateStep` touches only `failureCount`. -/
theorem validateStep_fields (s : ValState) (orig rev : List Int) :
    (validateStep s orig rev).comparisonCount = s.comparisonCount ∧
    (validateStep s orig rev).reversedCount = s.reversedCount ∧
    (validateStep s orig rev).errors = s.errors ∧
    (validateStep s orig rev).failureCount ≤ s.failureCount + 1 := by
  unfold validateStep
  split <;> simp

/-- The inner original-data retry loop leaves `reversedCount`,
`failureCount` and `errors` alone, and increments `comparisonCount`
exactly when it hands back a popped list. -/
theorem origPopLoop_counts (env : ValEnv) :
    ∀ fuel s s' r, origPopLoop env fuel s = some (s', r) →
      s'.reversedCount = s.reversedCount ∧
      s'.failureCount = s.failureCount ∧
      s'.errors = s.errors ∧
      (∀ v, r = some v → s'.comparisonCount = s.comparisonCount + 1) ∧
      (r = none → s'.comparisonCount = s.comparisonCount) := by
  intro fuel
  induction fuel with
  | zero => intro s s' r h; simp [origPopLoop] at h
  | succ fuel ih =>
    intro s s' r h
    rw [origPopLoop] at h
    by_cases hrun : env.running s.checkIdx
    · simp only [hrun, if_true] at h
      cases hpop : env.origPop s.origIdx with
      | some v =>
        simp only [hpop, Option.some.injEq, Prod.mk.injEq] at h
        obtain ⟨h1, h2⟩ := h
        subst h1
        subst h2
        simp
      | none =>
        simp only [hpop] at h
        have hc := ih _ _ _ h
        simp only at hc
        refine ⟨hc.1, hc.2.1, hc.2.2.1, ?_, ?_⟩
        · intro v hv
          have := hc.2.2.2.1 v hv
          simpa using this
        · intro hv
          have := hc.2.2.2.2 hv
          simpa using this
    · simp only [hrun, if_false, Bool.false_eq_true, Option.some.injEq,
        Prod.mk.injEq] at h
      obtain ⟨h1, h2⟩ := h
      subst h1
      subst h2
      simp

/-- The validator loop never changes `errors`: `ers::error` is never
called (the only candidate call is commented out in the source). -/
theorem valLoop_errors_const (env : ValEnv) :
    ∀ fuel s s', valLoop env fuel s = some s' → s'.errors = s.errors := by
  intro fuel
  induction fuel with
  | zero => intro s s' h; simp [valLoop] at h
  | succ fuel ih =>
    intro s s' h
    rw [valLoop] at h
    by_cases hrun : env.running s.checkIdx
    · simp only [hrun, if_true] at h
      cases hpop : env.revPop s.revIdx with
      | none =>
        simp only [hpop] at h
        have := ih _ _ h
        simpa using this
      | some rev =>
        simp only [hpop] at h
        split at h
        · exact absurd h (by simp)
        · rename_i s3 heq
          have hc := origPopLoop_counts env fuel _ _ _ heq
          have := ih _ _ h
          simp only at hc
          omega
        · rename_i s3 orig heq
          have hc := origPopLoop_counts env fuel _ _ _ heq
          have hv := (validateStep_fields s3 orig rev).2.2.1
          have := ih _ _ h
          simp only at hc
          omega
    · simp only [hrun, if_false, Bool.false_eq_true, Option.some.injEq] at h
      subst h
      simp

/-! ## Claim C8 -/

/-- C8: when the validator detects a mismatch, only `failureCount` is
incremented — `warnings` and `errors` stay put (the declared
`DataMismatchError` is never emitted; the `ers::error` call is commented
out), the popped lists are discarded (no list outlives the iteration in the
state), and the loop proceeds to the next iteration with the updated
counters.  The second conjunct states globally that no run of the loop ever
changes the `errors` count. -/
theorem validator_mismatch_only_counted (env : ValEnv) (s : ValState)
    (rev orig : List Int) (fuel : Nat)
    (h1 : env.running s.checkIdx = true)
    (h2 : env.revPop s.revIdx = some rev)
    (h3 : env.running (s.checkIdx + 1) = true)
    (h4 : env.origPop s.origIdx = some orig)
    (h5 : reverseList orig ≠ rev) :
    (valLoop env (fuel + 2) s =
      valLoop env (fuel + 1)
        { s with checkIdx := s.checkIdx + 2, revIdx := s.revIdx + 1,
                 origIdx := s.origIdx + 1,
                 reversedCount := s.reversedCount + 1,
                 comparisonCount := s.comparisonCount + 1,
                 failureCount := s.failureCount + 1 }) ∧
    (∀ fuel2 s', valLoop env fuel2 s = some s' → s'.errors = s.errors) := by
  constructor
  · have hstep : valLoop env (fuel + 2) s =
        valLoop env (fuel + 1)
          (validateStep
            { s with checkIdx := s.checkIdx + 2, revIdx := s.revIdx + 1,
                     origIdx := s.origIdx + 1,
                     reversedCount := s.reversedCount + 1,
                     comparisonCount := s.comparisonCount + 1 } orig rev) := by
      rw [valLoop]
      simp only [h1, if_true, h2]
      rw [origPopLoop]
      simp only [h3, if_true, h4]
    rw [hstep]
    unfold validateStep
    rw [if_pos h5]
  · intro fuel2 s' h
    exact valLoop_errors_const env fuel2 s s' h

/-- Witness for C8 at concrete inputs. -/
theorem validator_mismatch_only_counted_witness :
    (valLoop ⟨fun t => decide (t < 2), fun _ => some [5], fun _ => some [7]⟩
        (0 + 2) initValState =
      valLoop ⟨fun t => decide (t < 2), fun _ => some [5], fun _ => some [7]⟩
        (0 + 1)
        { initValState with
            checkIdx := initValState.checkIdx + 2,
            revIdx := initValState.revIdx + 1,
            origIdx := initValState.origIdx + 1,
            reversedCount := initValState.reversedCount + 1,
            comparisonCount := initValState.comparisonCount + 1,
            failureCount := initValState.failureCount + 1 }) ∧
    (∀ fuel2 s',
      valLoop ⟨fun t => decide (t < 2), fun _ => some [5], fun _ => some [7]⟩
          fuel2 initValState = some s' →
        s'.errors = initValState.errors) :=
  validator_mismatch_only_counted
    ⟨fun t => decide (t < 2), fun _ => some [5], fun _ => some [7]⟩
    initValState [5] [7] 0 rfl rfl rfl rfl (by decide)

/-! ## Claim C10 -/

/-- Through any number of validator-loop steps the counters keep the order
`failureCount ≤ comparisonCount ≤ reversedCount`. -/
theorem valLoop_counts_mono (env : ValEnv) :
    ∀ fuel s s', valLoop env fuel s = some s' →
      s.failureCount ≤ s.comparisonCount →
      s.comparisonCount ≤ s.reversedCount →
      s'.failureCount ≤ s'.comparisonCount ∧
      s'.comparisonCount ≤ s'.reversedCount := by
  intro fuel
  induction fuel with
  | zero => intro s s' h; simp [valLoop] at h
  | succ fuel ih =>
    intro s s' h hfc hcr
    rw [valLoop] at h
    by_cases hrun : env.running s.checkIdx
    · simp only [hrun, if_true] at h
      cases hpop : env.revPop s.revIdx with
      | none =>
        simp only [hpop] at h
        have := ih _ _ h (by simpa using hfc) (by simpa using hcr)
        simpa using this
      | some rev =>
        simp only [hpop] at h
        split at h
        · exact absurd h (by simp)
        · rename_i s3 heq
          have hc := origPopLoop_counts env fuel _ _ _ heq
          have hcomp := hc.2.2.2.2 rfl
          simp only at hc hcomp
          exact ih _ _ h (by omega) (by omega)
        · rename_i s3 orig heq
          have hc := origPopLoop_counts env fuel _ _ _ heq
          have hcomp := hc.2.2.2.1 orig rfl
          have hv := validateStep_fields s3 orig rev
          simp only at hc hcomp
          exact ih _ _ h (by omega) (by omega)
    · simp only [hrun, if_false, Bool.false_eq_true, Option.some.injEq] at h
      subst h
      exact ⟨hfc, hcr⟩

/-- C10: throughout every execution of the validator worker — from any
state already satisfying the ordering, hence in particular from the initial
all-zero state through every intermediate state to the exit summary — the
counters satisfy `failureCount ≤ comparisonCount ≤ reversedCount` (and all
are naturals, so `0 ≤ failureCount` holds by type). -/
theorem validator_counter_invariant (env : ValEnv) (fuel : Nat)
    (s s' : ValState)
    (h1 : s.failureCount ≤ s.comparisonCount)
    (h2 : s.comparisonCount ≤ s.reversedCount)
    (h : valLoop env fuel s = some s') :
    s'.failureCount ≤ s'.comparisonCount ∧
    s'.comparisonCount ≤ s'.reversedCount :=
  valLoop_counts_mono env fuel s s' h h1 h2

/-- Witness for C10 at concrete inputs: a run that receives one reversed
list, compares it and finds a mismatch, ending with all three counters 1. -/
theorem validator_counter_invariant_witness :
    (⟨1, 1, 1, 3, 1, 1, 0, 0⟩ : ValState).failureCount ≤
      (⟨1, 1, 1, 3, 1, 1, 0, 0⟩ : ValState).comparisonCount ∧
    (⟨1, 1, 1, 3, 1, 1, 0, 0⟩ : ValState).comparisonCount ≤
      (⟨1, 1, 1, 3, 1, 1, 0, 0⟩ : ValState).reversedCount :=
  validator_counter_invariant
    ⟨fun t => decide (t < 2), fun _ => some [1], fun _ => some [2]⟩
    3 initValState ⟨1, 1, 1, 3, 1, 1, 0, 0⟩ (by decide) (by decide) (by decide)

/-! ## Claim C7 -/

/-- The running flag of a worker thread is cleared by `do_stop` and never
re-set during one `do_work` run: once a check reads false, later checks
read false too. -/
def RunningMono (running : Nat → Bool) : Prop :=
  ∀ t u, t ≤ u → running t = false → running u = false

/-- The reverser's push retry loop either delivers exactly `v` (appending
it to `outputs` and bumping `sentCount`), or gives up because the running
flag read false, leaving `outputs` and `sentCount` alone; either way
`inputs` and `receivedCount` are untouched. -/
theorem pushLoop_track (env : RevEnv) (v : List Int) :
    ∀ fuel s s', pushLoop env v fuel s = some s' →
      s'.inputs = s.inputs ∧ s'.receivedCount = s.receivedCount ∧
      ((s'.outputs = s.outputs ++ [v] ∧ s'.sentCount = s.sentCount + 1) ∨
       (s'.outputs = s.outputs ∧ s'.sentCount = s.sentCount ∧
        ∃ c, c + 1 = s'.checkIdx ∧ env.running c = false)) := by
  intro fuel
  induction fuel with
  | zero => intro s s' h; simp [pushLoop] at h
  | succ fuel ih =>
    intro s s' h
    rw [pushLoop] at h
    by_cases hrun : env.running s.checkIdx
    · simp only [hrun, if_true] at h
      by_cases hpush : env.pushOk s.pushIdx
      · simp only [hpush, if_true, Option.some.injEq] at h
        subst h
        simp
      · simp only [hpush, if_false, Bool.false_eq_true] at h
        have hc := ih _ _ h
        simp only at hc
        refine ⟨hc.1, hc.2.1, ?_⟩
        rcases hc.2.2 with hsucc | hfail
        · exact Or.inl hsucc
        · exact Or.inr hfail
    · simp only [hrun, if_false, Bool.false_eq_true, Option.some.injEq] at h
      subst h
      exact ⟨rfl, rfl, Or.inr ⟨rfl, rfl, s.checkIdx, rfl, by simpa using hrun⟩⟩

/-- Post-condition of the reverser's outer loop, from any state at a loop
boundary (everything received so far already delivered): the delivered
lists are, in order, the reversals of the received lists, with at most the
last one missing when the thread was stopped mid-push. -/
theorem revLoop_post (env : RevEnv) (hmono : RunningMono env.running) :
    ∀ fuel s s',
      s.outputs = s.inputs.map reverseList →
      s.sentCount = s.inputs.length →
      s.receivedCount = s.inputs.length →
      revLoop env fuel s = some s' →
      s'.outputs = (s'.inputs.map reverseList).take s'.sentCount ∧
      s'.receivedCount = s'.inputs.length ∧
      (s'.sentCount = s'.receivedCount ∨
       s'.sentCount + 1 = s'.receivedCount) := by
  intro fuel
  induction fuel with
  | zero => intro s s' _ _ _ h; simp [revLoop] at h
  | succ fuel ih =>
    intro s s' hout hsent hrecv h
    rw [revLoop] at h
    by_cases hrun : env.running s.checkIdx
    · simp only [hrun, if_true] at h
      cases hpop : env.pops s.popIdx with
      | none =>
        simp only [hpop] at h
        have := ih _ _ (by simpa using hout) (by simpa using hsent)
          (by simpa using hrecv) h
        simpa using this
      | some v =>
        simp only [hpop] at h
        split at h
        · exact absurd h (by simp)
        · rename_i s3 heq
          have hc := pushLoop_track env (reverseList v) fuel _ _ heq
          simp only at hc
          obtain ⟨hin3, hrc3, hcase⟩ := hc
          rcases hcase with ⟨hout3, hsent3⟩ | ⟨hout3, hsent3, c, hc1, hcf⟩
          · refine ih _ _ ?_ ?_ ?_ h
            · rw [hout3, hin3, hout, List.map_append]
              rfl
            · rw [hsent3, hin3, hsent, List.length_append]
              rfl
            · rw [hrc3, hin3, hrecv, List.length_append]
              rfl
          · have hstop : env.running s3.checkIdx = false := by
              refine hmono c s3.checkIdx ?_ hcf
              omega
            cases fuel with
            | zero => simp [revLoop] at h
            | succ fuel2 =>
              rw [revLoop] at h
              simp only [hstop, if_false, Bool.false_eq_true,
                Option.some.injEq] at h
              subst h
              refine ⟨?_, ?_, Or.inr ?_⟩
              · show s3.outputs = (s3.inputs.map reverseList).take s3.sentCount
                rw [hout3, hin3, hsent3, List.map_append, hout, hsent]
                exact (List.take_left' (by rw [List.length_map])).symm
              · show s3.receivedCount = s3.inputs.length
                rw [hrc3, hin3, hrecv, List.length_append]
                rfl
              · show s3.sentCount + 1 = s3.receivedCount
                rw [hsent3, hrc3, hsent, hrecv]
    · simp only [hrun, if_false, Bool.false_eq_true, Option.some.injEq] at h
      subst h
      refine ⟨?_, by simpa using hrecv, Or.inl (by simp [hsent, hrecv])⟩
      show s.outputs = (s.inputs.map reverseList).take s.sentCount
      rw [hout, hsent]
      exact (List.length_map s.inputs reverseList ▸
        List.take_length (s.inputs.map reverseList)).symm

/-- C7: in a run of `ListReverser::do_work` with valid queues whose running
flag, once cleared, stays cleared, the lists pushed to the output queue are
exactly the reversals of the lists popped from the input queue, in order
(`outputs` is the `sentCount`-long front of `map reverseList inputs`), with
exactly one output per input — except that the final input's output is
missing when the thread was stopped before its push succeeded
(`sentCount + 1 = receivedCount`). -/
theorem reverser_outputs_are_reversed_inputs (env : RevEnv) (fuel : Nat)
    (res : RevResult) (hmono : RunningMono env.running)
    (h : reverserDoWork false false env fuel = some res) :
    res.state.outputs =
      (res.state.inputs.map reverseList).take res.state.sentCount ∧
    res.state.receivedCount = res.state.inputs.length ∧
    (res.state.sentCount = res.state.receivedCount ∨
     res.state.sentCount + 1 = res.state.receivedCount) := by
  have hDW : reverserDoWork false false env fuel =
      (revLoop env fuel initRevState).map
        (fun s => { state := s, fatals := 0 }) := rfl
  rw [hDW, Option.map_eq_some'] at h
  obtain ⟨s1, hx, hres⟩ := h
  subst hres
  exact revLoop_post env hmono fuel initRevState s1 rfl rfl rfl hx

/-- Witness for C7 at concrete inputs: one list `[1, 2]` is popped, its
reversal `[2, 1]` is pushed, and the thread then stops. -/
theorem reverser_outputs_are_reversed_inputs_witness :
    (⟨1, 1, [[1, 2]], [[2, 1]], 4, 2, 1, 0⟩ : RevState).outputs =
      ((⟨1, 1, [[1, 2]], [[2, 1]], 4, 2, 1, 0⟩ : RevState).inputs.map
        reverseList).take
        (⟨1, 1, [[1, 2]], [[2, 1]], 4, 2, 1, 0⟩ : RevState).sentCount ∧
    (⟨1, 1, [[1, 2]], [[2, 1]], 4, 2, 1, 0⟩ : RevState).receivedCount =
      (⟨1, 1, [[1, 2]], [[2, 1]], 4, 2, 1, 0⟩ : RevState).inputs.length ∧
    ((⟨1, 1, [[1, 2]], [[2, 1]], 4, 2, 1, 0⟩ : RevState).sentCount =
      (⟨1, 1, [[1, 2]], [[2, 1]], 4, 2, 1, 0⟩ : RevState).receivedCount ∨
     (⟨1, 1, [[1, 2]], [[2, 1]], 4, 2, 1, 0⟩ : RevState).sentCount + 1 =
      (⟨1, 1, [[1, 2]], [[2, 1]], 4, 2, 1, 0⟩ : RevState).receivedCount) :=
  reverser_outputs_are_reversed_inputs
    ⟨fun t => decide (t < 3),
     fun p => if p == 0 then some [1, 2] else none,
     fun _ => true⟩
    4 ⟨⟨1, 1, [[1, 2]], [[2, 1]], 4, 2, 1, 0⟩, 0⟩
    (by
      intro t u htu hf
      simp only [decide_eq_false_iff_not, Nat.not_lt] at hf ⊢
      omega)
    (by decide)
